import Mathlib

/-!
Verification of the file-handle class of tgd-header-lib
(`include/tgd_header/file.hpp`) against its specification.

The class `tgd_header::detail::file` owns one OS file descriptor
(`int m_fd = -1;` — the sentinel `-1` means "no resource owned").
We embed the member functions as pure Lean functions.  Effects are made
explicit:

* the platform `::close` primitive is an oracle `os : Int → Option Int`
  (`none` = the call returned `0`, `some e` = it failed and `errno` was `e`);
* a thrown `std::system_error` becomes an `Option OsError` component of the
  result;
* the descriptors actually handed to the platform close call are collected
  in a `List Int`, so that "never invokes the actual OS close" and
  "never double-closes" are statable.
-/

set_option maxHeartbeats 1000000

namespace tgd_header

/-- Models `std::system_error`: the platform error code (`errno`) plus the
context message the throwing site attached. -/
structure OsError where
  code : Int
  msg : String
deriving Repr, DecidableEq

/-- The `file` class of `file.hpp`: a single data member `int m_fd = -1;`.
The value `-1` is the sentinel meaning "not owning any resource". -/
structure file where
  m_fd : Int
deriving Repr, DecidableEq

/-- The sentinel stored by an empty handle (`int m_fd = -1;`). -/
def sentinel : Int := -1

/-- Owning state, per the spec data model: the instance does not hold the
sentinel. -/
def file.owning (f : file) : Prop :=
  f.m_fd ≠ sentinel

/-- Empty / moved-from state: the instance holds the sentinel. -/
def file.emptyState (f : file) : Prop :=
  f.m_fd = sentinel

instance (f : file) : Decidable f.owning := by
  unfold file.owning
  infer_instance

instance (f : file) : Decidable f.emptyState := by
  unfold file.emptyState
  infer_instance

/-- `void close()` (file.hpp lines 132-140):

    if (m_fd >= 2) {
        if (::close(m_fd) != 0) {
            m_fd = -1;
            throw std::system_error{errno, std::system_category(), "Error closing file: "};
        }
        m_fd = -1;
    }

Result: the object afterwards, the exception thrown (if any), and the list
of descriptors passed to the platform `::close` primitive. -/
def file.close (os : Int → Option Int) (f : file) : file × Option OsError × List Int :=
  if 2 ≤ f.m_fd then
    match os f.m_fd with
    | some e => (⟨-1⟩, some ⟨e, "Error closing file: "⟩, [f.m_fd])
    | none => (⟨-1⟩, none, [f.m_fd])
  else
    (f, none, [])

/-- `~file()` (lines 124-130): calls `close()` and swallows any exception
(`try { close(); } catch (...) {}`) so the destructor is `noexcept`.
Result: the exception propagated to the caller (always `none`, by the
catch-all) and the descriptors passed to the platform close. -/
def file.destruct (os : Int → Option Int) (f : file) : Option OsError × List Int :=
  (none, (f.close os).2.2)

/-- `explicit file(int fd)` (lines 99-101): wraps a raw descriptor,
no validation. -/
def file.wrap (fd : Int) : file :=
  ⟨fd⟩

/-- `file(file&& other)` (lines 106-109): the new object takes
`other.m_fd`; `other.m_fd` is set to `-1`.  Result: (new object, source
afterwards). -/
def file.moveConstruct (other : file) : file × file :=
  (⟨other.m_fd⟩, ⟨-1⟩)

/-- Result of `operator=(file&&)`: destination and source afterwards, the
exception propagated (always `none`, by the catch-all), and the descriptors
passed to the platform close while releasing the destination. -/
structure MoveAssignResult where
  dest : file
  src : file
  thrown : Option OsError
  calls : List Int
deriving Repr, DecidableEq

/-- `file& operator=(file&& other)` (lines 111-122): first `close()` on the
destination with any exception swallowed, then `m_fd = other.m_fd;
other.m_fd = -1;`. -/
def file.moveAssign (os : Int → Option Int) (a other : file) : MoveAssignResult :=
  { dest := ⟨other.m_fd⟩, src := ⟨-1⟩, thrown := none, calls := (a.close os).2.2 }

/-- `int fd() const noexcept` (lines 142-144). -/
def file.fd (f : file) : Int :=
  f.m_fd

/-- `static int open_file(filename, flags, ...)` (lines 86-95).  The
platform `::open` call is modelled by its outcome: `ret` is the descriptor
it returned and `err` the accompanying `errno`.

    const int fd = ::open(filename.c_str(), flags, args...);
    if (fd < 0) {
        throw std::system_error{errno, std::system_category(),
            std::string{"Error opening file \x27"} + filename + "\x27: "};
    }
    return fd;
-/
def open_file (ret : Int) (err : Int) (filename : String) : Except OsError Int :=
  if ret < 0 then
    Except.error ⟨err, "Error opening file \x27" ++ filename ++ "\x27: "⟩
  else
    Except.ok ret

/-- `static_cast<std::size_t>(x)` for a signed 64-bit value: conversion to
the unsigned type is reduction modulo 2^64. -/
def size_t_cast (n : Int) : Nat :=
  (n % (2 ^ 64 : Int)).toNat

/-- The OS state visible to `file_size()`: per-descriptor file metadata
(the `fstat` outcome: `errno` on failure, or `st_size` on success) and the
current read/write cursor of each descriptor — which `file_size` must not
consult. -/
structure OsEnv where
  meta : Int → Except Int Int
  cursor : Int → Int

/-- `std::size_t file_size() const`, Unix branch (lines 156-163):

    struct stat s;
    if (::fstat(m_fd, &s) != 0) {
        throw std::system_error{errno, std::system_category(), "Could not get file size: "};
    }
    return static_cast<std::size_t>(s.st_size);
-/
def file.file_size (env : OsEnv) (f : file) : Except OsError Nat :=
  match env.meta f.m_fd with
  | Except.error e => Except.error ⟨e, "Could not get file size: "⟩
  | Except.ok size => Except.ok (size_t_cast size)

/-- `std::size_t file_size() const`, Windows branch (lines 147-155).
`flen fd` models `::_filelengthi64(fd)` as the pair (returned length,
`errno` as observed after the call):

    const auto size = ::_filelengthi64(m_fd);
    if (size < 0) {
        throw std::system_error{errno, std::system_category(), "Could not get file size: "};
    }
    return static_cast<std::size_t>(size);
-/
def file.file_size_win (flen : Int → Int × Int) (f : file) : Except OsError Nat :=
  if (flen f.m_fd).1 < 0 then
    Except.error ⟨(flen f.m_fd).2, "Could not get file size: "⟩
  else
    Except.ok (size_t_cast (flen f.m_fd).1)

/-- Abstract state of one underlying open file: invalid (with the `errno`
the metadata query would produce) or a byte length.  `fstat` reports it as
an error/`st_size` outcome. -/
def fstatSpec (af : Except Int Nat) : Except Int Int :=
  match af with
  | Except.error e => Except.error e
  | Except.ok n => Except.ok (n : Int)

/-- The same abstract file as seen through `::_filelengthi64`: on failure
the call returns `-1` and sets `errno`; on success it returns the length
(a nonnegative `__int64`). -/
def filelengthSpec (af : Except Int Nat) : Int × Int :=
  match af with
  | Except.error e => (-1, e)
  | Except.ok n => ((n : Int), 0)

/-- Operations a single `file` instance can undergo after construction:
explicit `close()`, destruction, being moved out of, and being
move-assigned from a source whose descriptor is `v`. -/
inductive FOp where
  | closeOp
  | destructOp
  | moveOut
  | moveInFrom (v : Int)
deriving Repr, DecidableEq

/-- Effect of one operation on the stored descriptor, together with the
descriptors handed to the platform close call.  Mirrors `close`,
`~file`, the move constructor (source side) and `operator=(file&&)`
(destination side). -/
def stepFd (s : Int) (op : FOp) : Int × List Int :=
  match op with
  | FOp.closeOp => if 2 ≤ s then (-1, [s]) else (s, [])
  | FOp.destructOp => if 2 ≤ s then (-1, [s]) else (s, [])
  | FOp.moveOut => (-1, [])
  | FOp.moveInFrom v => if 2 ≤ s then (v, [s]) else (v, [])

/-- Run a sequence of operations from descriptor `s`, collecting every
descriptor handed to the platform close call. -/
def runFd (s : Int) : List FOp → Int × List Int
  | [] => (s, [])
  | op :: rest =>
    ((runFd (stepFd s op).1 rest).1, (stepFd s op).2 ++ (runFd (stepFd s op).1 rest).2)

/-- Occurrences of the value `v` in a list of descriptors. -/
def countInt (v : Int) : List Int → Nat
  | [] => 0
  | x :: rest => (if x = v then 1 else 0) + countInt v rest

/-- Number of acquisitions of descriptor `v` by move-in during a
sequence of operations. -/
def moveInCount (v : Int) : List FOp → Nat
  | [] => 0
  | FOp.moveInFrom u :: rest => (if u = v then 1 else 0) + moveInCount v rest
  | FOp.closeOp :: rest => moveInCount v rest
  | FOp.destructOp :: rest => moveInCount v rest
  | FOp.moveOut :: rest => moveInCount v rest

/-- Well-formed operation: a move-in comes from an owning source, as the
spec state machine stipulates. -/
def wfOp (op : FOp) : Prop :=
  match op with
  | FOp.moveInFrom u => u ≠ -1
  | _ => True

theorem countInt_append (v : Int) (l1 l2 : List Int) :
    countInt v (l1 ++ l2) = countInt v l1 + countInt v l2 := by
  induction l1 with
  | nil => simp [countInt]
  | cons x rest ih => simp [countInt, ih]; omega

theorem runFd_count_le (v : Int) (hv : 2 ≤ v) :
    ∀ (ops : List FOp) (s : Int),
      countInt v (runFd s ops).2 ≤ (if s = v then 1 else 0) + moveInCount v ops := by
  intro ops
  induction ops with
  | nil => intro s; simp [runFd, countInt]
  | cons op rest ih =>
    intro s
    have hrun : countInt v (runFd s (op :: rest)).2
        = countInt v (stepFd s op).2 + countInt v (runFd (stepFd s op).1 rest).2 := by
      simp [runFd, countInt_append]
    rw [hrun]
    cases op with
    | closeOp =>
      by_cases hs : 2 ≤ s
      · have h1 : stepFd s FOp.closeOp = (-1, [s]) := by simp [stepFd, hs]
        have h2 := ih (-1)
        simp only [h1, countInt, moveInCount]
        split_ifs at h2 ⊢ <;> omega
      · have h1 : stepFd s FOp.closeOp = (s, []) := by simp [stepFd, hs]
        have h2 := ih s
        simp only [h1, countInt, moveInCount]
        split_ifs at h2 ⊢ <;> omega
    | destructOp =>
      by_cases hs : 2 ≤ s
      · have h1 : stepFd s FOp.destructOp = (-1, [s]) := by simp [stepFd, hs]
        have h2 := ih (-1)
        simp only [h1, countInt, moveInCount]
        split_ifs at h2 ⊢ <;> omega
      · have h1 : stepFd s FOp.destructOp = (s, []) := by simp [stepFd, hs]
        have h2 := ih s
        simp only [h1, countInt, moveInCount]
        split_ifs at h2 ⊢ <;> omega
    | moveOut =>
      have h1 : stepFd s FOp.moveOut = (-1, []) := rfl
      have h2 := ih (-1)
      simp only [h1, countInt, moveInCount]
      split_ifs at h2 ⊢ <;> omega
    | moveInFrom u =>
      by_cases hs : 2 ≤ s
      · have h1 : stepFd s (FOp.moveInFrom u) = (u, [s]) := by simp [stepFd, hs]
        have h2 := ih u
        simp only [h1, countInt, moveInCount]
        split_ifs at h2 ⊢ <;> omega
      · have h1 : stepFd s (FOp.moveInFrom u) = (u, []) := by simp [stepFd, hs]
        have h2 := ih u
        simp only [h1, countInt, moveInCount]
        split_ifs at h2 ⊢ <;> omega

/-- Claim C1: for an owning handle with a non-reserved value (`m_fd ≥ 2`),
when the platform close primitive fails, `close()` still forces the instance
to the empty state (the stored handle becomes the sentinel) while reporting
an `OsError` carrying the platform error code, so ownership is released and
a subsequent `close()` is a no-op. -/
theorem close_failure_forces_empty (os : Int → Option Int) (f : file) (e : Int)
    (h2 : 2 ≤ f.m_fd) (hf : os f.m_fd = some e) :
    (f.close os).1.m_fd = sentinel
      ∧ (f.close os).2.1 = some ⟨e, "Error closing file: "⟩
      ∧ ((f.close os).1).close os = ((f.close os).1, none, []) := by
  refine ⟨?_, ?_, ?_⟩ <;> simp [file.close, h2, hf, sentinel]

/-- Witness for the claim C1 theorem: descriptor 5, platform close failing
with error code 9. -/
theorem close_failure_forces_empty_witness :
    2 ≤ (file.wrap 5).m_fd
      ∧ (fun _ : Int => some (9 : Int)) (file.wrap 5).m_fd = some 9
      ∧ (((file.wrap 5).close (fun _ => some 9)).1.m_fd = sentinel
          ∧ ((file.wrap 5).close (fun _ => some 9)).2.1
              = some ⟨9, "Error closing file: "⟩
          ∧ (((file.wrap 5).close (fun _ => some 9)).1).close (fun _ => some 9)
              = (((file.wrap 5).close (fun _ => some 9)).1, none, [])) :=
  ⟨by decide, rfl,
   close_failure_forces_empty (fun _ => some 9) (file.wrap 5) 9 (by decide) rfl⟩

/-- Claim C2 as stated is false at the owning handle `file.wrap 0`: with a
platform close that always succeeds, `close()` succeeds but afterwards
`fd()` still returns `0`, not the sentinel (the reserved-stream guard skips
the close without clearing the handle). -/
theorem close_owning_counterexample :
    ¬ (∀ (os : Int → Option Int) (f : file),
        f.owning → (∀ x, os x = none) →
        ((f.close os).2.1 = none ∧ (f.close os).1.m_fd = sentinel)) := by
  intro h
  have h0 := h (fun _ => none) (file.wrap 0) (by decide) (fun _ => rfl)
  have h1 : ((file.wrap 0).close (fun _ => none)).1.m_fd = 0 := by decide
  rw [h0.2] at h1
  exact absurd h1 (by decide)

/-- Claim C2 (amended): for a handle in the owning state with a non-reserved
value (`m_fd ≥ 2`), calling `close()` once succeeds when the underlying OS
close succeeds, and afterwards `fd()` returns the sentinel. -/
theorem close_once_success (os : Int → Option Int) (f : file)
    (h2 : 2 ≤ f.m_fd) (hok : os f.m_fd = none) :
    f.close os = (⟨sentinel⟩, none, [f.m_fd]) ∧ ((f.close os).1).fd = sentinel := by
  constructor <;> simp [file.close, h2, hok, file.fd, sentinel]

/-- Witness for the amended claim C2 theorem: descriptor 5, platform close
succeeding. -/
theorem close_once_success_witness :
    2 ≤ (file.wrap 5).m_fd
      ∧ (fun _ : Int => (none : Option Int)) (file.wrap 5).m_fd = none
      ∧ ((file.wrap 5).close (fun _ => none) = (⟨sentinel⟩, none, [(file.wrap 5).m_fd])
          ∧ (((file.wrap 5).close (fun _ => none)).1).fd = sentinel) :=
  ⟨by decide, rfl, close_once_success (fun _ => none) (file.wrap 5) (by decide) rfl⟩

/-- Claim C5: a handle that is empty (sentinel) or holds one of the two
reserved standard-stream values (0 or 1) never reaches the platform close
primitive: `close()` is a no-op and always succeeds. -/
theorem close_reserved_noop (os : Int → Option Int) (f : file)
    (h : f.m_fd = sentinel ∨ f.m_fd = 0 ∨ f.m_fd = 1) :
    f.close os = (f, none, []) := by
  have hn : ¬ 2 ≤ f.m_fd := by
    rcases h with h | h | h <;> simp [h, sentinel]
  simp [file.close, hn]

/-- Witness for the claim C5 theorem: the reserved stream value 0. -/
theorem close_reserved_noop_witness :
    ((file.wrap 0).m_fd = sentinel ∨ (file.wrap 0).m_fd = 0 ∨ (file.wrap 0).m_fd = 1)
      ∧ (file.wrap 0).close (fun _ => some 9) = (file.wrap 0, none, []) :=
  ⟨by decide, close_reserved_noop (fun _ => some 9) (file.wrap 0) (by decide)⟩

/-- Claim C10: for any stored handle value strictly below 2 — the sentinel,
the two reserved stream values, or any other negative value handed to the
wrapping constructor — `close()` performs no OS call, reports success, and
leaves the stored value unchanged, so `fd()` still returns that same value
afterwards. -/
theorem close_below_two_noop (os : Int → Option Int) (f : file)
    (h : f.m_fd < 2) :
    f.close os = (f, none, []) ∧ ((f.close os).1).fd = f.m_fd := by
  have hn : ¬ 2 ≤ f.m_fd := by omega
  constructor <;> simp [file.close, hn, file.fd]

/-- Witness for the claim C10 theorem: the reserved stream value 1 (its
value survives the no-op close), with a platform close that would fail if
it were ever called. -/
theorem close_below_two_noop_witness :
    (file.wrap 1).m_fd < 2
      ∧ ((file.wrap 1).close (fun _ => some 9) = (file.wrap 1, none, [])
          ∧ (((file.wrap 1).close (fun _ => some 9)).1).fd = (file.wrap 1).m_fd) :=
  ⟨by decide, close_below_two_noop (fun _ => some 9) (file.wrap 1) (by decide)⟩

/-- Claim C3: moving from an owning source transfers ownership — after a
move construction or move assignment the destination holds the source's
pre-move descriptor and the source holds the sentinel; and when the
destination of a move assignment previously held a non-reserved descriptor
(`m_fd ≥ 2`), that descriptor is handed to the platform close (released)
as part of the assignment, before the destination takes over. -/
theorem move_transfers_ownership (os : Int → Option Int) (a b : file) :
    b.moveConstruct = (⟨b.m_fd⟩, ⟨sentinel⟩)
      ∧ (b.moveConstruct).1.fd = b.m_fd
      ∧ (a.moveAssign os b).dest.m_fd = b.m_fd
      ∧ (a.moveAssign os b).src.m_fd = sentinel
      ∧ (2 ≤ a.m_fd → (a.moveAssign os b).calls = [a.m_fd]) := by
  refine ⟨rfl, rfl, rfl, rfl, ?_⟩
  intro h
  cases hos : os a.m_fd <;> simp [file.moveAssign, file.close, h, hos]

/-- Witness for the claim C3 theorem: destination owning descriptor 7,
source owning descriptor 5. -/
theorem move_transfers_ownership_witness :
    ((file.wrap 5).moveConstruct = (⟨(file.wrap 5).m_fd⟩, ⟨sentinel⟩)
        ∧ ((file.wrap 5).moveConstruct).1.fd = (file.wrap 5).m_fd
        ∧ ((file.wrap 7).moveAssign (fun _ => none) (file.wrap 5)).dest.m_fd
            = (file.wrap 5).m_fd
        ∧ ((file.wrap 7).moveAssign (fun _ => none) (file.wrap 5)).src.m_fd = sentinel
        ∧ (2 ≤ (file.wrap 7).m_fd →
            ((file.wrap 7).moveAssign (fun _ => none) (file.wrap 5)).calls
              = [(file.wrap 7).m_fd]))
      ∧ ((file.wrap 7).moveAssign (fun _ => none) (file.wrap 5)).calls = [7] :=
  have h := move_transfers_ownership (fun _ => none) (file.wrap 7) (file.wrap 5)
  ⟨h, h.2.2.2.2 (by decide)⟩

/-- Claim C4: the automatic cleanup paths never fail from the caller's
point of view — the destructor and move assignment propagate no `OsError`,
for every state of the handle and every behaviour of the platform close;
in particular under a fault that makes the explicit `close()` report an
error, the destructor still reports none. -/
theorem cleanup_suppresses_errors (os : Int → Option Int) (f a b : file) :
    (f.destruct os).1 = none
      ∧ (a.moveAssign os b).thrown = none
      ∧ (∀ e : Int, 2 ≤ f.m_fd → os f.m_fd = some e →
          (f.close os).2.1 = some ⟨e, "Error closing file: "⟩
            ∧ (f.destruct os).1 = none) := by
  refine ⟨rfl, rfl, ?_⟩
  intro e h2 he
  exact ⟨by simp [file.close, h2, he], rfl⟩

/-- Witness for the claim C4 theorem: descriptor 4 with a platform close
failing with error code 13. -/
theorem cleanup_suppresses_errors_witness :
    (((file.wrap 4).destruct (fun _ => some 13)).1 = none
        ∧ ((file.wrap 6).moveAssign (fun _ => some 13) (file.wrap 5)).thrown = none
        ∧ (∀ e : Int, 2 ≤ (file.wrap 4).m_fd → (fun _ : Int => some (13 : Int)) (file.wrap 4).m_fd = some e →
            ((file.wrap 4).close (fun _ => some 13)).2.1
                = some ⟨e, "Error closing file: "⟩
              ∧ ((file.wrap 4).destruct (fun _ => some 13)).1 = none))
      ∧ ((file.wrap 4).close (fun _ => some 13)).2.1 = some ⟨13, "Error closing file: "⟩ :=
  have h := cleanup_suppresses_errors (fun _ => some 13) (file.wrap 4) (file.wrap 6) (file.wrap 5)
  ⟨h, (h.2.2 13 (by decide) rfl).1⟩

/-- Claim C6: when the platform open primitive returns a negative
descriptor, `open_file` fails with an `OsError` carrying the platform error
code and a message that includes the attempted path, and no descriptor is
produced; when it returns a nonnegative descriptor, `open_file` succeeds
with exactly that descriptor, which the wrapping constructor takes over. -/
theorem open_file_error_policy (ret err : Int) (filename : String) :
    (ret < 0 →
        open_file ret err filename
            = Except.error ⟨err, "Error opening file \x27" ++ filename ++ "\x27: "⟩
          ∧ ∃ s t, "Error opening file \x27" ++ filename ++ "\x27: "
              = s ++ filename ++ t)
      ∧ (0 ≤ ret →
          open_file ret err filename = Except.ok ret ∧ (file.wrap ret).fd = ret) := by
  constructor
  · intro h
    exact ⟨by simp [open_file, h], "Error opening file \x27", "\x27: ", rfl⟩
  · intro h
    have hn : ¬ ret < 0 := by omega
    exact ⟨by simp [open_file, hn], rfl⟩

/-- Witness for the claim C6 theorem: a failed open (`ret = -1`,
`errno = 2`) of path "missing.tgd". -/
theorem open_file_error_policy_witness :
    (-1 : Int) < 0
      ∧ (open_file (-1) 2 "missing.tgd"
            = Except.error ⟨2, "Error opening file \x27" ++ "missing.tgd" ++ "\x27: "⟩
          ∧ ∃ s t, "Error opening file \x27" ++ "missing.tgd" ++ "\x27: "
              = s ++ "missing.tgd" ++ t) :=
  ⟨by decide, (open_file_error_policy (-1) 2 "missing.tgd").1 (by decide)⟩

/-- Claim C7: `file_size()` returns the byte length obtained from the file
metadata of the stored descriptor — it depends only on the metadata map of
the OS environment, never on the read/write cursor — and fails with an
`OsError` carrying the platform error code when the metadata query fails;
for a handle wrapping a descriptor freshly produced by a successful
`open_file` whose metadata records the on-disk byte length, it returns
exactly that length. -/
theorem file_size_reads_metadata (env env2 : OsEnv) (f : file) :
    (∀ n : Int, env.meta f.m_fd = Except.ok n → 0 ≤ n → n < 2 ^ 64 →
        f.file_size env = Except.ok n.toNat)
      ∧ (∀ e : Int, env.meta f.m_fd = Except.error e →
          f.file_size env = Except.error ⟨e, "Could not get file size: "⟩)
      ∧ (env.meta = env2.meta → f.file_size env = f.file_size env2)
      ∧ (∀ (ret err : Int) (path : String) (dsize : Nat),
          open_file ret err path = Except.ok ret →
          env.meta ret = Except.ok (dsize : Int) → (dsize : Int) < 2 ^ 64 →
          (file.wrap ret).file_size env = Except.ok dsize) := by
  refine ⟨?_, ?_, ?_, ?_⟩
  · intro n hm h0 hlt
    have hcast : size_t_cast n = n.toNat := by
      unfold size_t_cast
      rw [Int.emod_eq_of_lt h0 hlt]
    simp [file.file_size, hm, hcast]
  · intro e hm
    simp [file.file_size, hm]
  · intro hmeta
    unfold file.file_size
    rw [hmeta]
  · intro ret err path dsize _ hm hlt
    have hcast : size_t_cast (dsize : Int) = dsize := by
      unfold size_t_cast
      rw [Int.emod_eq_of_lt (by positivity) hlt]
      simp
    simp [file.file_size, file.wrap, hm, hcast]

/-- Witness for the claim C7 theorem: an environment whose metadata reports
length 7 for every descriptor, queried through the handle wrapping 3. -/
theorem file_size_reads_metadata_witness :
    (OsEnv.mk (fun _ => Except.ok 7) (fun _ => 0)).meta (file.wrap 3).m_fd
        = Except.ok 7
      ∧ (0 : Int) ≤ 7 ∧ (7 : Int) < 2 ^ 64
      ∧ (file.wrap 3).file_size ⟨fun _ => Except.ok 7, fun _ => 0⟩
          = Except.ok (7 : Int).toNat :=
  ⟨rfl, by decide, by decide,
   (file_size_reads_metadata ⟨fun _ => Except.ok 7, fun _ => 0⟩
      ⟨fun _ => Except.ok 7, fun _ => 0⟩ (file.wrap 3)).1 7 rfl (by decide) (by decide)⟩

/-- Claim C9: the Unix (`fstat`-based) and Windows (`_filelengthi64`-based)
implementations of `file_size` are semantically equivalent: viewing the
same abstract underlying file through the respective platform primitives,
they return the same value and fail under the same conditions; on a valid
file of length `n < 2^64` both return exactly `n`. -/
theorem file_size_platform_equiv (af : Int → Except Int Nat) (c : Int → Int)
    (f : file) :
    f.file_size ⟨fun fd => fstatSpec (af fd), c⟩
        = f.file_size_win (fun fd => filelengthSpec (af fd))
      ∧ (∀ n : Nat, af f.m_fd = Except.ok n → (n : Int) < 2 ^ 64 →
          f.file_size ⟨fun fd => fstatSpec (af fd), c⟩ = Except.ok n
            ∧ f.file_size_win (fun fd => filelengthSpec (af fd)) = Except.ok n) := by
  have key : ∀ n : Nat, af f.m_fd = Except.ok n →
      f.file_size ⟨fun fd => fstatSpec (af fd), c⟩
          = Except.ok (size_t_cast (n : Int))
        ∧ f.file_size_win (fun fd => filelengthSpec (af fd))
          = Except.ok (size_t_cast (n : Int)) := by
    intro n haf
    have hn : ¬ ((n : Int) < 0) := by omega
    constructor
    · simp [file.file_size, fstatSpec, haf]
    · simp [file.file_size_win, filelengthSpec, haf, hn]
  constructor
  · cases haf : af f.m_fd with
    | error e =>
      simp [file.file_size, file.file_size_win, fstatSpec, filelengthSpec, haf]
    | ok n =>
      have h := key n haf
      rw [h.1, h.2]
  · intro n haf hlt
    have h := key n haf
    have hcast : size_t_cast (n : Int) = n := by
      unfold size_t_cast
      rw [Int.emod_eq_of_lt (by positivity) hlt]
      simp
    rw [hcast] at h
    exact h

/-- Witness for the claim C9 theorem: an abstract file of length 7 behind
every descriptor, seen through the handle wrapping 3. -/
theorem file_size_platform_equiv_witness :
    ((file.wrap 3).file_size ⟨fun fd => fstatSpec ((fun _ => Except.ok 7) fd), fun _ => 0⟩
        = (file.wrap 3).file_size_win (fun fd => filelengthSpec ((fun _ => Except.ok 7) fd)))
      ∧ ((fun _ : Int => (Except.ok 7 : Except Int Nat)) (file.wrap 3).m_fd = Except.ok 7
          ∧ ((7 : Nat) : Int) < 2 ^ 64
          ∧ (file.wrap 3).file_size
              ⟨fun fd => fstatSpec ((fun _ => Except.ok 7) fd), fun _ => 0⟩
              = Except.ok 7) :=
  have h := file_size_platform_equiv (fun _ => Except.ok 7) (fun _ => 0) (file.wrap 3)
  ⟨h.1, rfl, by decide, (h.2 7 rfl (by decide)).1⟩

/-- Claim C8: along any sequence of operations on a single instance, a
descriptor value `v ≥ 2` is handed to the platform close primitive at most
once per acquisition (the initial wrap/open plus each move-in of `v`), so
the instance never double-closes; every instance is in exactly one of the
states owning or empty; and, for well-formed operations (move-in from an
owning source), empty→owning happens only by move-in and owning→empty only
by close, destruction, or move-out. -/
theorem single_instance_lifecycle (init v : Int) (ops : List FOp) (hv : 2 ≤ v) :
    countInt v (runFd init ops).2 ≤ (if init = v then 1 else 0) + moveInCount v ops
      ∧ (∀ f : file, (f.owning ∧ ¬ f.emptyState) ∨ (f.emptyState ∧ ¬ f.owning))
      ∧ (∀ (s : Int) (op : FOp), wfOp op →
          ((s = sentinel → (stepFd s op).1 ≠ sentinel →
              ∃ u, op = FOp.moveInFrom u ∧ u ≠ sentinel)
            ∧ (s ≠ sentinel → (stepFd s op).1 = sentinel →
                op = FOp.closeOp ∨ op = FOp.destructOp ∨ op = FOp.moveOut))) := by
  refine ⟨runFd_count_le v hv ops init, ?_, ?_⟩
  · intro f
    by_cases h : f.m_fd = sentinel
    · exact Or.inr ⟨h, fun hc => hc h⟩
    · exact Or.inl ⟨h, fun hc => h hc⟩
  · intro s op hop
    constructor
    · intro hs hne
      cases op with
      | closeOp =>
        exfalso; apply hne
        simp [stepFd, hs, sentinel]
      | destructOp =>
        exfalso; apply hne
        simp [stepFd, hs, sentinel]
      | moveOut =>
        exfalso; apply hne; rfl
      | moveInFrom u =>
        exact ⟨u, rfl, hop⟩
    · intro hs hstep
      cases op with
      | closeOp => exact Or.inl rfl
      | destructOp => exact Or.inr (Or.inl rfl)
      | moveOut => exact Or.inr (Or.inr rfl)
      | moveInFrom u =>
        exfalso
        apply hop
        unfold stepFd at hstep
        split_ifs at hstep <;> exact hstep

/-- Witness for the claim C8 theorem: the trace `close` from descriptor 3,
tracked value 3. -/
theorem single_instance_lifecycle_witness :
    (2 : Int) ≤ 3
      ∧ (countInt 3 (runFd 3 [FOp.closeOp]).2
            ≤ (if (3 : Int) = 3 then 1 else 0) + moveInCount 3 [FOp.closeOp]
          ∧ (∀ f : file, (f.owning ∧ ¬ f.emptyState) ∨ (f.emptyState ∧ ¬ f.owning))
          ∧ (∀ (s : Int) (op : FOp), wfOp op →
              ((s = sentinel → (stepFd s op).1 ≠ sentinel →
                  ∃ u, op = FOp.moveInFrom u ∧ u ≠ sentinel)
                ∧ (s ≠ sentinel → (stepFd s op).1 = sentinel →
                    op = FOp.closeOp ∨ op = FOp.destructOp ∨ op = FOp.moveOut)))) :=
  ⟨by decide, single_instance_lifecycle 3 3 [FOp.closeOp] (by decide)⟩
